import Mathlib

/-!
Shallow embedding of the reconciliation core of `crossplane-contrib/provider-kops`
(package `util` plus the `kops` controller in `internal/controller`).

Go strings are Lean `String`s; Go errors are `String`s carrying the error text;
fallible Go calls are `Except String _` (or `Option String` when only the error
matters).  External collaborators (the kops clientset, the key store, the cloud
resolver, the provisioning engine, the resource ops) are modelled as oracle
records whose fields give the outcome of each external call; the reconciler
functions are translated call for call from the Go source against those
oracles.  Go structs with many fields irrelevant to the comparator are modelled
with the named fields the code touches plus a `rest` field standing for all
remaining fields, so that `reflect.DeepEqual` becomes structural equality.
-/

namespace ProviderKops

/-- Model of `strings.Contains`: `listStartsWith s pat` is true when `pat` is a
prefix of `s` (character lists). -/
def listStartsWith : List Char → List Char → Bool
  | _, [] => true
  | [], _ :: _ => false
  | a :: as, b :: bs => a == b && listStartsWith as bs

/-- Model of `strings.Contains`: `listHasSub s pat` is true when `pat` occurs as
a contiguous substring of `s`. -/
def listHasSub : List Char → List Char → Bool
  | [], pat => listStartsWith [] pat
  | s@(_ :: rest), pat => listStartsWith s pat || listHasSub rest pat

/-- Model of `strings.Contains(s, pat)` on Lean strings. -/
def strContainsPat (s pat : String) : Bool :=
  listHasSub s.data pat.data

/-- Source `util.ErrNotFound`: `strings.Contains(err.Error(), "not found")`. -/
def ErrNotFound (e : String) : Bool :=
  strContainsPat e "not found"

/-- Model of `github.com/pkg/errors.Wrap(err, msg)`: it produces the message `msg ++ ": " ++ err`. -/
def wrap (e msg : String) : String :=
  msg ++ ": " ++ e

/-- The `kopsapi.ClusterSpec` fields the comparator touches (`ConfigBase`,
`MasterPublicName`); `rest` stands for every other field of the spec, so that
`reflect.DeepEqual` is structural equality on this record. -/
structure ClusterSpec where
  configBase : String
  masterPublicName : String
  rest : String
deriving DecidableEq

/-- Model of `kopsapi.Cluster`: object name plus spec. -/
structure Cluster where
  name : String
  spec : ClusterSpec
deriving DecidableEq

/-- The instance-group label key used for identity matching. -/
def instanceGroupLabel : String := "kops.k8s.io/instancegroup"

/-- Go map lookup with the zero value `""` for a missing key; the Go
`map[string]string` is modelled as an association list. -/
def lookupLabel : List (String × String) → String → String
  | [], _ => ""
  | (k, v) :: restEntries, key => if k = key then v else lookupLabel restEntries key

/-- Model of `kopsapi.InstanceGroupSpec`: the `NodeLabels` map the code reads, plus
`rest` for every other field, so `reflect.DeepEqual` is structural equality. -/
structure InstanceGroupSpec where
  nodeLabels : List (String × String)
  rest : String
deriving DecidableEq

/-- Model of `kopsapi.InstanceGroup`: object name plus spec. -/
structure InstanceGroup where
  name : String
  spec : InstanceGroupSpec
deriving DecidableEq

/-- Model of `kopsapi.InstanceGroupList`. -/
structure InstanceGroupList where
  items : List InstanceGroup
deriving DecidableEq

/-- Source `util.CreateInstanceGroupSpec`: the created object's name is the
value of the `kops.k8s.io/instancegroup` node label. -/
def igName (ig : InstanceGroupSpec) : String :=
  lookupLabel ig.nodeLabels instanceGroupLabel

/-- Source `util.ClusterResourceUpToDate`.  The Go function receives `old` and
`new` by pointer and assigns `new.ConfigBase = ""` and
`new.MasterPublicName = ""` before `reflect.DeepEqual(old, new)`; the model
returns the comparison result together with the post-call values of both
arguments, making the write through the `new` pointer observable. -/
def ClusterResourceUpToDate (old new : ClusterSpec) : Bool × ClusterSpec × ClusterSpec :=
  let new := { new with configBase := "", masterPublicName := "" }
  (old == new, old, new)

/-- Source `util.InstanceGroupListResourceUpToDate`: the double loop returns
`false` as soon as some desired spec and some observed item carry the same
`kops.k8s.io/instancegroup` label value but differ under `reflect.DeepEqual`,
and `true` once the loops finish. -/
def InstanceGroupListResourceUpToDate (old : List InstanceGroupSpec)
    (new : InstanceGroupList) : Bool :=
  !(old.any fun oldInstance =>
      new.items.any fun newInstance =>
        lookupLabel oldInstance.nodeLabels instanceGroupLabel
            == lookupLabel newInstance.spec.nodeLabels instanceGroupLabel
          && oldInstance != newInstance.spec)

/-- Model of `validation.ValidationError`: only its `Message` is read. -/
structure ValidationError where
  message : String
deriving DecidableEq

/-- Model of `validation.ValidationNode`: hostname and readiness status.  The status is
the `corev1.ConditionStatus` string (`"True"`, `"False"`, `"Unknown"`). -/
structure ValidationNode where
  hostname : String
  status : String
deriving DecidableEq

/-- The constant `corev1.ConditionFalse`. -/
def conditionFalse : String := "False"

/-- Model of `validation.ValidationCluster`: structural failures plus node states. -/
structure ValidationCluster where
  failures : List ValidationError
  nodes : List ValidationNode
deriving DecidableEq

/-- The message `fmt.Sprintf("node %s condition is %s", node.Hostname, node.Status)`. -/
def nodeMessage (n : ValidationNode) : String :=
  "node " ++ n.hostname ++ " condition is " ++ n.status

/-- The node loop of `util.EvaluateKopsValidationResult`: each node whose
status is `corev1.ConditionFalse` forces the result to `false` and appends its
message. -/
def evalNodes : List ValidationNode → Bool × List String → Bool × List String
  | [], acc => acc
  | node :: restNodes, acc =>
    if node.status == conditionFalse then
      evalNodes restNodes (false, acc.2 ++ [nodeMessage node])
    else
      evalNodes restNodes acc

/-- Source `util.EvaluateKopsValidationResult`: starts with `result = true` and
an empty message list, flips to `false` and appends every failure message when
the failure list is non-empty, then runs the node loop. -/
def EvaluateKopsValidationResult (v : ValidationCluster) : Bool × List String :=
  let init : Bool × List String :=
    if v.failures.length > 0 then
      (false, v.failures.map ValidationError.message)
    else
      (true, [])
  evalNodes v.nodes init

/-- Model of `fmt.Errorf("%s", res)` for a `[]string`: Go prints a string slice as the
elements space-separated inside square brackets. -/
def fmtStringSlice (res : List String) : String :=
  "[" ++ String.intercalate " " res ++ "]"

/-- Opaque cloud handle (`fi.Cloud`). -/
abbrev Cloud := String

/-- Opaque cluster status (`kopsapi.ClusterStatus`). -/
abbrev ClusterStatus := String

/-- Opaque `rest.Config` produced by `BuildRestConfig`. -/
abbrev RestConfig := String

/-- The error-message constants of `internal/controller/kops`. -/
def errNotKops : String := "managed resource is not a Kops custom resource"

def errTrackPCUsage : String := "cannot track ProviderConfig usage"

def errNewClient : String := "cannot create new Service"

def errDeleteCluster : String := "cannot delete Kops cluster from API"

def errNewCluster : String := "cannot create Kops cluster"

def errNewClusterState : String := "cannot create Kops cluster state"

def errNewInstanceGroupState : String := "cannot create Kops instance group state"

def errNewCloud : String := "cannot create Kops cloud"

def errNewCloudAssignment : String := "cannot assign Kops cloud"

def errGetCluster : String := "cannot get Kops cluster from API"

def errGetInstanceGroup : String := "cannot get Kops instance group from API"

def errValidateCluster : String := "cannot validate Kops cluster"

def errEvaluateClusterState : String := "cannot evaluate Kops cluster state"

def errGetKubeConfig : String := "cannot get KubeConfig"

def errGetClusterStatus : String := "cannot get Kops cluster status"

def errUpdateCluster : String := "cannot update Kops cluster"

def errUpdateClusterState : String := "cannot update Kops cluster state"

def errDeleteResources : String := "cannot delete Kops resources"

/-- All error tags declared in the controller's `const` block. -/
def allErrTags : List String :=
  [errNotKops, errTrackPCUsage, errNewClient, errDeleteCluster, errNewCluster,
   errNewClusterState, errNewInstanceGroupState, errNewCloud, errNewCloudAssignment,
   errGetCluster, errGetInstanceGroup, errValidateCluster, errEvaluateClusterState,
   errGetKubeConfig, errGetClusterStatus, errUpdateCluster, errUpdateClusterState,
   errDeleteResources]

/-- An optional error is tagged when, if present, it is some declared stage tag
wrapped around a cause in the `errors.Wrap` format. -/
def TaggedErr (r : Option String) : Prop :=
  ∀ s, r = some s → ∃ tag cause, tag ∈ allErrTags ∧ s = wrap cause tag

/-- Model of `managed.ExternalObservation`, restricted to the fields the controller
sets; connection details are the kubeconfig bytes when present. -/
structure ExternalObservation where
  resourceExists : Bool
  resourceUpToDate : Bool
  connectionDetails : Option String
deriving DecidableEq

/-- Oracle for the external calls `Observe` makes, in program order:
`GetCluster`, `InstanceGroupsFor(cluster).List`, `util.ValidateKopsCluster`,
`util.GenerateKubeConfig`. -/
structure ObserveEnv where
  getCluster : Except String Cluster
  listInstanceGroups : Except String InstanceGroupList
  validateCluster : Except String ValidationCluster
  generateKubeConfig : Except String String

/-- Source `(*external).Observe`, as a function of the oracle, the desired
cluster spec and the desired instance-group list.  The returned triple is the
`ExternalObservation`, the returned error, and whether
`cr.Status.SetConditions(xpv1.Available())` was executed during the call. -/
def Observe (env : ObserveEnv) (desired : ClusterSpec)
    (desiredIGs : List InstanceGroupSpec) :
    ExternalObservation × Option String × Bool :=
  match env.getCluster with
  | .error e =>
    if ErrNotFound e then
      (⟨false, false, none⟩, none, false)
    else
      (⟨false, false, none⟩, some (wrap e errGetCluster), false)
  | .ok cluster =>
    match env.listInstanceGroups with
    | .error e => (⟨false, false, none⟩, some (wrap e errGetInstanceGroup), false)
    | .ok ig =>
      match env.validateCluster with
      | .error e => (⟨false, false, none⟩, some (wrap e errValidateCluster), false)
      | .ok validate =>
        match EvaluateKopsValidationResult validate with
        | (false, res) =>
          (⟨false, false, none⟩,
           some (wrap (fmtStringSlice res) errEvaluateClusterState), false)
        | (true, _) =>
          match env.generateKubeConfig with
          | .error e => (⟨false, false, none⟩, some (wrap e errGetKubeConfig), false)
          | .ok kubeconfigBytes =>
            (⟨true,
              (ClusterResourceUpToDate desired cluster.spec).1
                && InstanceGroupListResourceUpToDate desiredIGs ig,
              some kubeconfigBytes⟩,
             none, true)

/-- The external calls a `Create` invocation can make. -/
inductive Event where
  | createCluster
  | createIG (name : String)
  | buildCloud
  | performAssignments
  | applyRun
deriving DecidableEq

/-- Oracle for the external calls `Create` makes: `CreateCluster`, per-group
`InstanceGroupsFor(cluster).Create`, `cloudup.BuildCloud`,
`cloudup.PerformAssignments`, `ApplyClusterCmd.Run`. -/
structure CreateEnv where
  createCluster : Except String Cluster
  igCreate : InstanceGroupSpec → Option String
  buildCloud : Except String Cloud
  performAssignments : Option String
  applyRun : Option String

/-- The instance-group creation loop of `Create`: creates each group in list
order, aborting with the wrapped error on the first failure.  Returns the
error outcome and the trace of issued `createIG` calls. -/
def createInstanceGroups (env : CreateEnv) :
    List InstanceGroupSpec → Option String × List Event
  | [] => (none, [])
  | ig :: restIGs =>
    match env.igCreate ig with
    | some e => (some (wrap e errNewInstanceGroupState), [Event.createIG (igName ig)])
    | none =>
      let r := createInstanceGroups env restIGs
      (r.1, Event.createIG (igName ig) :: r.2)

/-- Source `(*external).Create`: create the cluster, then every instance group
in list order, then build the cloud, perform assignments and run the apply
command; `cr.Status.SetConditions(xpv1.Creating())` runs only after all of
that succeeded.  Returns the error, the trace of issued external calls, and
whether the Creating condition was set. -/
def Create (env : CreateEnv) (igs : List InstanceGroupSpec) :
    Option String × List Event × Bool :=
  match env.createCluster with
  | .error e => (some (wrap e errNewClusterState), [Event.createCluster], false)
  | .ok _cluster =>
    match createInstanceGroups env igs with
    | (some e, tr) => (some e, Event.createCluster :: tr, false)
    | (none, tr) =>
      match env.buildCloud with
      | .error e =>
        (some (wrap e errNewCloud),
         Event.createCluster :: tr ++ [Event.buildCloud], false)
      | .ok _cloud =>
        match env.performAssignments with
        | some e =>
          (some (wrap e errNewCloudAssignment),
           Event.createCluster :: tr ++ [Event.buildCloud, Event.performAssignments],
           false)
        | none =>
          match env.applyRun with
          | some e =>
            (some (wrap e errNewCluster),
             Event.createCluster :: tr
               ++ [Event.buildCloud, Event.performAssignments, Event.applyRun],
             false)
          | none =>
            (none,
             Event.createCluster :: tr
               ++ [Event.buildCloud, Event.performAssignments, Event.applyRun],
             true)

/-- Oracle for the external calls `Update` makes, in program order. -/
structure UpdateEnv where
  buildCloud : Except String Cloud
  performAssignments : Option String
  getClusterStatus : Except String ClusterStatus
  updateCluster : Except String Cluster
  igUpdate : InstanceGroupSpec → Option String
  applyRun : Option String

/-- The instance-group update loop of `Update`, aborting with the wrapped
error on the first failure. -/
def updateInstanceGroups (env : UpdateEnv) : List InstanceGroupSpec → Option String
  | [] => none
  | ig :: restIGs =>
    match env.igUpdate ig with
    | some e => some (wrap e errNewInstanceGroupState)
    | none => updateInstanceGroups env restIGs

/-- Source `(*external).Update`: build cloud, perform assignments, fetch the
cluster status, update the cluster, update every instance group, run the
apply command.  Returns the error outcome. -/
def Update (env : UpdateEnv) (igs : List InstanceGroupSpec) : Option String :=
  match env.buildCloud with
  | .error e => some (wrap e errNewCloud)
  | .ok _ =>
    match env.performAssignments with
    | some e => some (wrap e errNewCloudAssignment)
    | none =>
      match env.getClusterStatus with
      | .error e => some (wrap e errGetClusterStatus)
      | .ok _ =>
        match env.updateCluster with
        | .error e => some (wrap e errUpdateClusterState)
        | .ok _ =>
          match updateInstanceGroups env igs with
          | some e => some e
          | none =>
            match env.applyRun with
            | some e => some (wrap e errUpdateCluster)
            | none => none

/-- Oracle for the external calls `Delete` makes, in program order:
`GetCluster`, `cloudup.BuildCloud`, `resourceops.ListResources`,
`resourceops.DeleteResources`, `DeleteCluster`. -/
structure DeleteEnv where
  getCluster : Except String Cluster
  buildCloud : Except String Cloud
  listResources : Except String (List String)
  deleteResources : Option String
  deleteCluster : Option String

/-- Source `(*external).Delete`: note that a `ListResources` failure is
returned as-is (`return err`), while every other failure is wrapped;
`cr.Status.SetConditions(xpv1.Deleting())` runs only after `DeleteCluster`
succeeded.  Returns the error and whether the Deleting condition was set. -/
def Delete (env : DeleteEnv) : Option String × Bool :=
  match env.getCluster with
  | .error e => (some (wrap e errGetCluster), false)
  | .ok _ =>
    match env.buildCloud with
    | .error e => (some (wrap e errDeleteCluster), false)
    | .ok _ =>
      match env.listResources with
      | .error e => (some e, false)
      | .ok _ =>
        match env.deleteResources with
        | some e => (some (wrap e errDeleteResources), false)
        | none =>
          match env.deleteCluster with
          | some e => (some (wrap e errDeleteCluster), false)
          | none => (none, true)

/-- Go `time.Duration`: a count of nanoseconds stored in an `int64`. -/
abbrev Duration := Int

/-- The constant `time.Hour` in nanoseconds. -/
def timeHour : Duration := 3600000000000

/-- Two's-complement wraparound of Go `int64` arithmetic. -/
def wrap64 (x : Int) : Int :=
  (x + 2 ^ 63) % 2 ^ 64 - 2 ^ 63

/-- The constant `fi.CertificateIDCA`, the well-known CA signer identity (external kops constant). -/
def CertificateIDCA : String := "kubernetes-ca"

/-- The constant `rbac.SystemPrivilegedGroup` (external, `system:masters`). -/
def SystemPrivilegedGroup : String := "system:masters"

/-- A keyset as returned by `FindKeyset`; `certBytes` is the outcome of
`ToCertificateBytes`. -/
structure Keyset where
  certBytes : Except String String

/-- Model of `pki.IssueCertRequest` as built by `GetKubeconfigFromKopsState`. -/
structure IssueCertRequest where
  signer : String
  certType : String
  commonName : String
  organization : List String
  validity : Duration
deriving DecidableEq

/-- A certificate returned by `pki.IssueCert`; `bytes` is the outcome of `AsBytes`. -/
structure PkiCert where
  bytes : Except String String

/-- A private key returned by `pki.IssueCert`; `bytes` is the outcome of `AsBytes`. -/
structure PkiKey where
  bytes : Except String String

/-- The key-store handle returned by `kopsClientset.KeyStore`: it serves
`FindKeyset` and is the store `pki.IssueCert` draws from. -/
structure KeyStore where
  findKeyset : String → Except String (Option Keyset)
  issueCert : IssueCertRequest → Except String (PkiCert × PkiKey)

/-- The `kubeconfig.KubeconfigBuilder` fields the code assigns. -/
structure KubeconfigBuilder where
  context : String
  server : String
  caCerts : String
  clientCert : String
  clientKey : String
deriving DecidableEq

/-- Oracle for the external calls of `GetKubeconfigFromKopsState`. -/
structure KopsStateEnv where
  keyStore : Except String KeyStore
  buildRestConfig : KubeconfigBuilder → Except String RestConfig

/-- The tail of `util.GetKubeconfigFromKopsState` after the CA bytes are in
hand: issue the client certificate for the built request, serialize the
certificate and key, assemble the builder, build the rest config; each step's
failure aborts with that step's error. -/
def issueAndBuild (env : KopsStateEnv) (keyStore : KeyStore)
    (clusterName caCerts : String) (req : IssueCertRequest) :
    Except String RestConfig :=
  match keyStore.issueCert req with
  | .error e => .error e
  | .ok (cert, privateKey) =>
    match cert.bytes with
    | .error e => .error e
    | .ok clientCert =>
      match privateKey.bytes with
      | .error e => .error e
      | .ok clientKey =>
        let builder : KubeconfigBuilder :=
          { context := clusterName
            server := "https://api." ++ clusterName
            caCerts := caCerts
            clientCert := clientCert
            clientKey := clientKey }
        match env.buildRestConfig builder with
        | .error e => .error e
        | .ok config => .ok config

/-- Source `util.GetKubeconfigFromKopsState`, as a function of the oracle, the
cluster name and the caller's certificate ttl (a Go `time.Duration`).  After a
zero ttl is defaulted to `18`, the code sets the certificate request's
`Validity` to `ttl * time.Hour` (Go `int64` multiplication).  Besides the
`rest.Config` outcome, the model returns the `IssueCertRequest` passed to
`pki.IssueCert`, when that call was reached. -/
def GetKubeconfigFromKopsState (env : KopsStateEnv) (clusterName : String)
    (kubernetesAPICertificateTTL : Duration) :
    Except String RestConfig × Option IssueCertRequest :=
  match env.keyStore with
  | .error e => (.error e, none)
  | .ok keyStore =>
    match keyStore.findKeyset CertificateIDCA with
    | .error e => (.error e, none)
    | .ok keySet =>
      match keySet with
      | none => (.error "cannot find CA certificate", none)
      | some kset =>
        match kset.certBytes with
        | .error e => (.error e, none)
        | .ok caCerts =>
          let kubernetesAPICertificateTTL :=
            if kubernetesAPICertificateTTL = 0 then 18 else kubernetesAPICertificateTTL
          let req : IssueCertRequest :=
            { signer := CertificateIDCA
              certType := "client"
              commonName := "kops-operator"
              organization := [SystemPrivilegedGroup]
              validity := wrap64 (kubernetesAPICertificateTTL * timeHour) }
          (issueAndBuild env keyStore clusterName caCerts req, some req)

/-- The list of instance-group names in a trace, in order of issued
`createIG` calls. -/
def igTrace : List Event → List String
  | [] => []
  | Event.createIG n :: t => n :: igTrace t
  | _ :: t => igTrace t

/-- Index of the first instance group in the list whose creation the oracle
fails. -/
def firstFailIdx (env : CreateEnv) : List InstanceGroupSpec → Option Nat
  | [] => none
  | ig :: restIGs =>
    match env.igCreate ig with
    | some _ => some 0
    | none => (firstFailIdx env restIGs).map (· + 1)

/-- Concrete observed cluster whose spec differs from the desired spec. -/
def exCluster : Cluster :=
  ⟨"a.example.com", ⟨"s3://state/a.example.com", "api.a.example.com", "observed"⟩⟩

/-- Concrete desired spec differing from `exCluster`'s spec. -/
def exDesired : ClusterSpec := ⟨"", "", "desired"⟩

/-- Observe oracle where every external call succeeds and validation is clean. -/
def exObserveEnv : ObserveEnv :=
  ⟨.ok exCluster, .ok ⟨[]⟩, .ok ⟨[], []⟩, .ok "kubeconfig-bytes"⟩

/-- Observe oracle whose cluster fetch fails with a not-found error. -/
def exObserveEnvNotFound : ObserveEnv :=
  ⟨.error "cluster a.example.com not found", .ok ⟨[]⟩, .ok ⟨[], []⟩, .ok "kc"⟩

/-- Key store oracle where every call succeeds. -/
def exKeyStore : KeyStore :=
  ⟨fun _ => .ok (some ⟨.ok "ca-bytes"⟩),
   fun _ => .ok (⟨.ok "cert-bytes"⟩, ⟨.ok "key-bytes"⟩)⟩

/-- Kubeconfig-state oracle where every call succeeds. -/
def exKopsStateEnv : KopsStateEnv :=
  ⟨.ok exKeyStore, fun _ => .ok "rest-config"⟩

/-- The certificate request issued for a zero ttl: validity 18 hours in
nanoseconds. -/
def exReqTTL0 : IssueCertRequest :=
  ⟨CertificateIDCA, "client", "kops-operator", [SystemPrivilegedGroup], 64800000000000⟩

/-- Delete oracle whose resource listing fails with the bare error text "x". -/
def exDeleteEnvListFail : DeleteEnv :=
  ⟨.ok exCluster, .ok "aws", .error "x", none, none⟩

/-- Observed cluster spec carrying server-derived field values. -/
def exObservedSpec : ClusterSpec :=
  ⟨"s3://state/a.example.com", "api.a.example.com", "base"⟩

/-- Desired spec agreeing with `exObservedSpec` on everything but the derived
fields. -/
def exDesiredSpecEmptyDerived : ClusterSpec := ⟨"", "", "base"⟩

/-- Desired spec that itself carries a non-empty config base. -/
def exDesiredSpecWithDerived : ClusterSpec :=
  ⟨"s3://state/a.example.com", "", "core"⟩

/-- Desired instance-group list for the disjoint-label example. -/
def exIGsMaster : List InstanceGroupSpec :=
  [⟨[(instanceGroupLabel, "master")], "size 1"⟩]

/-- Observed instance-group list with a disjoint label value and different
content. -/
def exIGListNodes : InstanceGroupList :=
  ⟨[⟨"nodes", ⟨[(instanceGroupLabel, "nodes")], "size 7 different"⟩⟩]⟩

/-- Instance groups for the Create-order example: the second one fails, the
third must never be attempted. -/
def exCreateIGs : List InstanceGroupSpec :=
  [⟨[(instanceGroupLabel, "master")], "m"⟩,
   ⟨[(instanceGroupLabel, "nodes")], "n"⟩,
   ⟨[(instanceGroupLabel, "extra")], "e"⟩]

/-- Create oracle where cluster creation succeeds and the instance group
labelled "nodes" fails to create. -/
def exCreateEnvIGFail : CreateEnv :=
  ⟨.ok exCluster,
   fun ig => if igName ig = "nodes" then some "ig boom" else none,
   .ok "aws", none, none⟩

/-- Create oracle whose very first call, cluster creation, fails. -/
def exCreateEnvClusterFail : CreateEnv :=
  ⟨.error "cluster boom", fun _ => none, .ok "aws", none, none⟩

/-- Delete oracle whose very first call, the cluster fetch, fails. -/
def exDeleteEnvGetFail : DeleteEnv :=
  ⟨.error "gone", .ok "aws", .ok [], none, none⟩

theorem taggedErr_none : TaggedErr none :=
  fun _ hs => nomatch hs

theorem taggedErr_some (tag cause : String) (h : tag ∈ allErrTags) :
    TaggedErr (some (wrap cause tag)) := by
  intro s hs
  injection hs with hs
  exact ⟨tag, cause, h, hs.symm⟩

/-- C4: the claim that `ClusterResourceUpToDate` leaves both argument specs
unchanged is false: the call clears the observed spec's `ConfigBase` (and
`MasterPublicName`), so an observed spec with a non-empty config base does not
hold the same value after the call. -/
theorem cluster_comparator_mutates_observed :
    (ClusterResourceUpToDate exDesiredSpecEmptyDerived exObservedSpec).2.2.configBase
        ≠ exObservedSpec.configBase ∧
    (ClusterResourceUpToDate exDesiredSpecEmptyDerived exObservedSpec).2.2.masterPublicName
        ≠ exObservedSpec.masterPublicName := by
  decide

/-- C4 (amended): the comparator leaves the desired spec unchanged, but writes
through the observed-spec pointer: after the call the observed spec equals its
old value with `ConfigBase` and `MasterPublicName` cleared to the empty
string (all other fields unchanged). -/
theorem cluster_comparator_frame (old new : ClusterSpec) :
    (ClusterResourceUpToDate old new).2.1 = old ∧
    (ClusterResourceUpToDate old new).2.2 =
      { new with configBase := "", masterPublicName := "" } :=
  ⟨rfl, rfl⟩

/-- C5: if the desired and observed instance-group lists have pairwise
distinct (disjoint) `kops.k8s.io/instancegroup` label values, then
`InstanceGroupListResourceUpToDate` returns `true` regardless of any content
differences: only label-matched pairs are ever structurally compared. -/
theorem ig_list_disjoint_labels_up_to_date (old : List InstanceGroupSpec)
    (new : InstanceGroupList)
    (h : ∀ o ∈ old, ∀ n ∈ new.items,
      lookupLabel o.nodeLabels instanceGroupLabel ≠
        lookupLabel n.spec.nodeLabels instanceGroupLabel) :
    InstanceGroupListResourceUpToDate old new = true := by
  unfold InstanceGroupListResourceUpToDate
  simp only [Bool.not_eq_true', List.any_eq_false]
  intro o ho hany
  simp only [List.any_eq_true, Bool.and_eq_true, beq_iff_eq] at hany
  obtain ⟨n, hn, hcond, _⟩ := hany
  exact h o ho n hn hcond

theorem ig_list_disjoint_labels_up_to_date_witness :
    (∀ o ∈ exIGsMaster, ∀ n ∈ exIGListNodes.items,
      lookupLabel o.nodeLabels instanceGroupLabel ≠
        lookupLabel n.spec.nodeLabels instanceGroupLabel) ∧
    InstanceGroupListResourceUpToDate exIGsMaster exIGListNodes = true :=
  ⟨by decide, ig_list_disjoint_labels_up_to_date _ _ (by decide)⟩

/-- C6: the claim fails for a desired spec that itself carries a non-empty
derived field: the comparator clears the derived fields only on the observed
spec, and then deep equality against the desired spec's non-empty
`ConfigBase` fails. -/
theorem cluster_up_to_date_derived_counterexample :
    (ClusterResourceUpToDate exDesiredSpecWithDerived
      { exDesiredSpecWithDerived with
          configBase := "s3://other", masterPublicName := "api.a" }).1 = false := by
  decide

/-- C6 (amended): for every desired spec whose own derived fields
(`ConfigBase`, `MasterPublicName`) are empty, the comparator returns `true`
against any observed spec that differs from it only in arbitrary values of
those two derived fields. -/
theorem cluster_up_to_date_ignores_derived (s : ClusterSpec) (a b : String)
    (h1 : s.configBase = "") (h2 : s.masterPublicName = "") :
    (ClusterResourceUpToDate s
      { s with configBase := a, masterPublicName := b }).1 = true := by
  obtain ⟨cb, mpn, r⟩ := s
  simp only at h1 h2
  subst h1 h2
  simp [ClusterResourceUpToDate]

theorem cluster_up_to_date_ignores_derived_witness :
    exDesiredSpecEmptyDerived.configBase = "" ∧
    exDesiredSpecEmptyDerived.masterPublicName = "" ∧
    (ClusterResourceUpToDate exDesiredSpecEmptyDerived
      { exDesiredSpecEmptyDerived with
          configBase := "s3://x", masterPublicName := "api.x" }).1 = true :=
  ⟨rfl, rfl, cluster_up_to_date_ignores_derived exDesiredSpecEmptyDerived "s3://x" "api.x" rfl rfl⟩

theorem evalNodes_spec (nodes : List ValidationNode) (b : Bool) (msgs : List String) :
    evalNodes nodes (b, msgs) =
      (b && nodes.all (fun n => !(n.status == conditionFalse)),
       msgs ++ (nodes.filter (fun n => n.status == conditionFalse)).map nodeMessage) := by
  induction nodes generalizing b msgs with
  | nil => simp [evalNodes]
  | cons n rest ih =>
    by_cases h : (n.status == conditionFalse) = true
    · simp [evalNodes, h, ih, List.filter_cons, List.append_assoc]
    · simp only [Bool.not_eq_true] at h
      simp [evalNodes, h, ih, List.filter_cons]

/-- C8: `EvaluateKopsValidationResult` returns `ok = true` exactly when the
failure list is empty and no node's status is exactly `"False"` (missing or
unknown statuses do not count), and its message list is the failures'
messages in source order followed by one "node x condition is status" message
per false node in iteration order, with no deduplication. -/
theorem evaluate_validation_spec (v : ValidationCluster) :
    (EvaluateKopsValidationResult v).1 =
      (v.failures.isEmpty && v.nodes.all (fun n => !(n.status == conditionFalse))) ∧
    (EvaluateKopsValidationResult v).2 =
      v.failures.map ValidationError.message ++
        (v.nodes.filter (fun n => n.status == conditionFalse)).map nodeMessage := by
  obtain ⟨fails, nodes⟩ := v
  cases fails with
  | nil => simp [EvaluateKopsValidationResult, evalNodes_spec]
  | cons f fs => simp [EvaluateKopsValidationResult, evalNodes_spec]

/-- C1: the claim is false: on an Observe where every external call succeeds
and validation passes but the observed cluster spec differs from the desired
one, the Available condition is set even though the observation reports the
resource not up to date. -/
theorem observe_available_despite_stale :
    (Observe exObserveEnv exDesired []).2.2 = true ∧
    (Observe exObserveEnv exDesired []).1.resourceUpToDate = false ∧
    (Observe exObserveEnv exDesired []).2.1 = none := by
  decide

/-- C1 (amended): Observe sets the Available condition exactly when it runs to
completion successfully — cluster found, instance groups listed, validation
passed, kubeconfig generated, so it returns exists = true with a nil error —
independently of whether `ClusterResourceUpToDate` and
`InstanceGroupListResourceUpToDate` report the resource up to date. -/
theorem observe_available_iff_full_success (env : ObserveEnv) (d : ClusterSpec)
    (igs : List InstanceGroupSpec) :
    (Observe env d igs).2.2 = true ↔
      ((Observe env d igs).2.1 = none ∧ (Observe env d igs).1.resourceExists = true) := by
  unfold Observe
  repeat' split
  all_goals simp

/-- C7: when the cluster fetch of Observe fails with an error whose text
contains "not found", Observe returns exists = false with a nil error (and no
Available condition); on any other fetch error it returns exists = false
together with the error wrapped with the cluster-fetch tag. -/
theorem observe_fetch_error_classification (env : ObserveEnv) (d : ClusterSpec)
    (igs : List InstanceGroupSpec) (e : String)
    (h : env.getCluster = Except.error e) :
    (ErrNotFound e = true →
      Observe env d igs = (⟨false, false, none⟩, none, false)) ∧
    (ErrNotFound e = false →
      (Observe env d igs).1.resourceExists = false ∧
      (Observe env d igs).2.1 = some (wrap e errGetCluster)) := by
  unfold Observe
  rw [h]
  constructor
  · intro hnf
    simp [hnf]
  · intro hnf
    simp [hnf]

theorem observe_fetch_error_classification_witness :
    ErrNotFound "cluster a.example.com not found" = true ∧
    Observe exObserveEnvNotFound exDesired [] = (⟨false, false, none⟩, none, false) :=
  ⟨by decide,
   (observe_fetch_error_classification exObserveEnvNotFound exDesired []
      "cluster a.example.com not found" rfl).1 (by decide)⟩

/-- C2: the claim is false for a non-zero ttl: the code multiplies the
caller's `time.Duration` by `time.Hour`, so a caller ttl of 2 (two
nanoseconds as a Go duration) yields a certificate request whose validity is
7200000000000 ns (two hours), not the caller's duration of 2 ns. -/
theorem kubeconfig_ttl_counterexample :
    (GetKubeconfigFromKopsState exKopsStateEnv "a.example.com" 2).2 =
      some ⟨CertificateIDCA, "client", "kops-operator", [SystemPrivilegedGroup],
        7200000000000⟩ ∧
    (7200000000000 : Int) ≠ 2 := by
  constructor
  · decide
  · decide

/-- C2 (amended): whenever `GetKubeconfigFromKopsState` reaches certificate
issuance, the issued request's validity equals the resolved ttl multiplied by
one hour under Go int64 arithmetic, where the resolved ttl is 18 when the
caller passed zero and the caller's ttl value otherwise; in particular ttl = 0
yields a validity of exactly 18 hours. -/
theorem kubeconfig_ttl_validity (env : KopsStateEnv) (clusterName : String)
    (ttl : Duration) (req : IssueCertRequest)
    (h : (GetKubeconfigFromKopsState env clusterName ttl).2 = some req) :
    req.validity = wrap64 ((if ttl = 0 then 18 else ttl) * timeHour) := by
  unfold GetKubeconfigFromKopsState at h
  split at h
  · exact absurd h (by simp)
  · split at h
    · exact absurd h (by simp)
    · split at h
      · exact absurd h (by simp)
      · split at h
        · exact absurd h (by simp)
        · by_cases hc : ttl = 0
          · rw [if_pos hc] at h ⊢
            injection h with h
            subst h
            rfl
          · rw [if_neg hc] at h ⊢
            injection h with h
            subst h
            rfl

theorem kubeconfig_ttl_validity_witness :
    (GetKubeconfigFromKopsState exKopsStateEnv "a.example.com" 0).2 = some exReqTTL0 ∧
    exReqTTL0.validity = 64800000000000 := by
  have h0 : (GetKubeconfigFromKopsState exKopsStateEnv "a.example.com" 0).2 =
      some exReqTTL0 := by decide
  refine ⟨h0, ?_⟩
  have h := kubeconfig_ttl_validity exKopsStateEnv "a.example.com" 0 exReqTTL0 h0
  rw [h]
  decide

theorem tagged_observe (env : ObserveEnv) (d : ClusterSpec)
    (igs : List InstanceGroupSpec) : TaggedErr (Observe env d igs).2.1 := by
  unfold Observe
  repeat' split
  all_goals first
    | exact taggedErr_none
    | exact taggedErr_some _ _ (by decide)

theorem tagged_createIGs (env : CreateEnv) (igs : List InstanceGroupSpec) :
    TaggedErr (createInstanceGroups env igs).1 := by
  induction igs with
  | nil => exact taggedErr_none
  | cons ig rest ih =>
    unfold createInstanceGroups
    split
    · exact taggedErr_some _ _ (by decide)
    · exact ih

theorem tagged_create (env : CreateEnv) (igs : List InstanceGroupSpec) :
    TaggedErr (Create env igs).1 := by
  unfold Create
  split
  · exact taggedErr_some _ _ (by decide)
  · split
    · next e tr heq =>
        have hall := tagged_createIGs env igs
        rw [heq] at hall
        exact hall
    · split
      · exact taggedErr_some _ _ (by decide)
      · split
        · exact taggedErr_some _ _ (by decide)
        · split
          · exact taggedErr_some _ _ (by decide)
          · exact taggedErr_none

theorem tagged_updateIGs (env : UpdateEnv) (igs : List InstanceGroupSpec) :
    TaggedErr (updateInstanceGroups env igs) := by
  induction igs with
  | nil => exact taggedErr_none
  | cons ig rest ih =>
    unfold updateInstanceGroups
    split
    · exact taggedErr_some _ _ (by decide)
    · exact ih

theorem tagged_update (env : UpdateEnv) (igs : List InstanceGroupSpec) :
    TaggedErr (Update env igs) := by
  unfold Update
  repeat' split
  all_goals first
    | exact taggedErr_none
    | exact taggedErr_some _ _ (by decide)
    | (next e heq =>
        have hall := tagged_updateIGs env igs
        rw [heq] at hall
        exact fun s hs => hall s (by injection hs with hs; rw [hs]))

theorem tagged_delete_or_raw (env : DeleteEnv) :
    TaggedErr (Delete env).1 ∨
      ∃ e, env.listResources = Except.error e ∧ (Delete env).1 = some e := by
  unfold Delete
  split
  · exact Or.inl (taggedErr_some _ _ (by decide))
  · split
    · exact Or.inl (taggedErr_some _ _ (by decide))
    · split
      · next e heq => exact Or.inr ⟨e, heq, rfl⟩
      · split
        · exact Or.inl (taggedErr_some _ _ (by decide))
        · split
          · exact Or.inl (taggedErr_some _ _ (by decide))
          · exact Or.inl taggedErr_none

/-- C3: the claim is false: a Delete whose resource-listing call fails returns
the listing error untagged — the returned text is the bare cause "x", which
cannot be of the wrapped form tag-colon-cause for any declared stage tag. -/
theorem delete_list_error_untagged :
    (Delete exDeleteEnvListFail).1 = some "x" ∧
    ¬ TaggedErr (Delete exDeleteEnvListFail).1 := by
  refine ⟨rfl, fun hT => ?_⟩
  obtain ⟨tag, cause, htag, heq⟩ := hT "x" rfl
  have hlen := congrArg String.length heq
  simp only [wrap, String.length_append] at hlen
  have h1 : ("x" : String).length = 1 := rfl
  have h2 : (": " : String).length = 2 := rfl
  rw [h1, h2] at hlen
  have htl : 10 ≤ tag.length := by
    fin_cases htag <;> decide
  omega

/-- C3 (amended): across all four operations every returned external-call
failure is wrapped with a stage tag from the controller's declared tag set,
with one exception: a failure of the resource-listing call inside Delete is
propagated as the bare underlying error, untagged. -/
theorem all_errors_tagged_except_delete_listing (oenv : ObserveEnv)
    (d : ClusterSpec) (digs : List InstanceGroupSpec)
    (cenv : CreateEnv) (cigs : List InstanceGroupSpec)
    (uenv : UpdateEnv) (uigs : List InstanceGroupSpec) (denv : DeleteEnv) :
    TaggedErr (Observe oenv d digs).2.1 ∧
    TaggedErr (Create cenv cigs).1 ∧
    TaggedErr (Update uenv uigs) ∧
    (TaggedErr (Delete denv).1 ∨
      ∃ e, denv.listResources = Except.error e ∧ (Delete denv).1 = some e) :=
  ⟨tagged_observe oenv d digs, tagged_create cenv cigs,
   tagged_update uenv uigs, tagged_delete_or_raw denv⟩

theorem igTrace_append (a b : List Event) :
    igTrace (a ++ b) = igTrace a ++ igTrace b := by
  induction a with
  | nil => rfl
  | cons e t ih => cases e <;> simp [igTrace, ih]

theorem igTrace_map_createIG (l : List InstanceGroupSpec) :
    igTrace (l.map fun ig => Event.createIG (igName ig)) = l.map igName := by
  induction l with
  | nil => rfl
  | cons ig t ih => simp [igTrace, ih]

theorem count_createCluster_map (l : List InstanceGroupSpec) :
    (l.map fun ig => Event.createIG (igName ig)).count Event.createCluster = 0 := by
  induction l with
  | nil => rfl
  | cons ig t ih => simp [List.count_cons, ih]

theorem count_createCluster_take_map (n : Nat) (l : List InstanceGroupSpec) :
    (List.take n (l.map fun ig => Event.createIG (igName ig))).count
        Event.createCluster = 0 := by
  rw [← List.map_take]
  exact count_createCluster_map _

theorem igTrace_take_map (n : Nat) (l : List InstanceGroupSpec) :
    igTrace (List.take n (l.map fun ig => Event.createIG (igName ig))) =
      List.take n (l.map igName) := by
  rw [← List.map_take, ← List.map_take]
  exact igTrace_map_createIG _

theorem createIGs_trace (env : CreateEnv) (igs : List InstanceGroupSpec) :
    (match firstFailIdx env igs with
     | none =>
       (createInstanceGroups env igs).1 = none ∧
       (createInstanceGroups env igs).2 =
         igs.map fun ig => Event.createIG (igName ig)
     | some k =>
       (createInstanceGroups env igs).1.isSome = true ∧
       (createInstanceGroups env igs).2 =
         (igs.take (k + 1)).map fun ig => Event.createIG (igName ig) : Prop) := by
  induction igs with
  | nil => simp [firstFailIdx, createInstanceGroups]
  | cons ig rest ih =>
    cases hig : env.igCreate ig with
    | some e => simp [firstFailIdx, createInstanceGroups, hig]
    | none =>
      cases hff : firstFailIdx env rest with
      | none =>
        simp only [hff] at ih
        simp [firstFailIdx, createInstanceGroups, hig, hff, ih.1, ih.2]
      | some k =>
        simp only [hff] at ih
        simp [firstFailIdx, createInstanceGroups, hig, hff, ih.1, ih.2]

/-- C9: every Create issues the cluster-create call first and exactly once;
when cluster creation succeeds, the instance-group create calls are issued in
desired-list order — all groups when no creation fails, and exactly the
groups up to and including the first failing one when one fails, in which
case Create returns an error and no later group is created (and nothing is
rolled back: the already-issued calls remain in the trace); when cluster
creation fails, no instance-group call is issued. -/
theorem create_sequence_spec (env : CreateEnv) (igs : List InstanceGroupSpec) :
    (Create env igs).2.1.head? = some Event.createCluster ∧
    (Create env igs).2.1.count Event.createCluster = 1 ∧
    (∀ c, env.createCluster = Except.ok c →
      (match firstFailIdx env igs with
       | none => igTrace (Create env igs).2.1 = igs.map igName
       | some k =>
         igTrace (Create env igs).2.1 = (igs.take (k + 1)).map igName ∧
         (Create env igs).1.isSome = true : Prop)) ∧
    (∀ e, env.createCluster = Except.error e →
      igTrace (Create env igs).2.1 = [] ∧ (Create env igs).1.isSome = true) := by
  have hC := createIGs_trace env igs
  cases hcc : env.createCluster with
  | error e =>
    refine ⟨?_, ?_, ?_, ?_⟩
    · simp [Create, hcc]
    · simp [Create, hcc]
    · intro c hc
      exact nomatch hc
    · intro e' he'
      refine ⟨?_, ?_⟩ <;> simp [Create, hcc, igTrace]
  | ok c =>
    cases hff : firstFailIdx env igs with
    | some k =>
      simp only [hff] at hC
      obtain ⟨e, he⟩ := Option.isSome_iff_exists.mp hC.1
      have hpair : createInstanceGroups env igs =
          (some e, (igs.take (k + 1)).map fun ig => Event.createIG (igName ig)) :=
        Prod.ext he hC.2
      refine ⟨?_, ?_, ?_, ?_⟩
      · simp [Create, hcc, hpair]
      · simp [Create, hcc, hpair, List.count_cons, count_createCluster_map,
          count_createCluster_take_map]
      · intro c' hc'
        simp only [hff]
        refine ⟨?_, ?_⟩ <;>
          simp [Create, hcc, hpair, igTrace, igTrace_map_createIG, igTrace_take_map]
      · intro e' he'
        exact nomatch he'
    | none =>
      simp only [hff] at hC
      have hpair : createInstanceGroups env igs =
          (none, igs.map fun ig => Event.createIG (igName ig)) :=
        Prod.ext hC.1 hC.2
      refine ⟨?_, ?_, ?_, ?_⟩
      · simp only [Create, hcc, hpair]
        repeat' split
        all_goals rfl
      · simp only [Create, hcc, hpair]
        repeat' split
        all_goals
          simp [List.count_cons, List.count_append, count_createCluster_map]
      · intro c' hc'
        simp only [hff, Create, hcc, hpair]
        repeat' split
        all_goals
          simp [igTrace, igTrace_append, igTrace_map_createIG]
      · intro e' he'
        exact nomatch he'

theorem create_sequence_spec_witness :
    igTrace (Create exCreateEnvIGFail exCreateIGs).2.1 = ["master", "nodes"] ∧
    (Create exCreateEnvIGFail exCreateIGs).1.isSome = true := by
  have h := (create_sequence_spec exCreateEnvIGFail exCreateIGs).2.2.1 exCluster rfl
  have hff : firstFailIdx exCreateEnvIGFail exCreateIGs = some 1 := by decide
  simp only [hff] at h
  refine ⟨h.1.trans ?_, h.2⟩
  decide

/-- C10: the claim is false: on a Create whose cluster-create call fails the
Creating condition is not set, and on a Delete whose cluster fetch fails the
Deleting condition is not set — both ended with an error and neither
condition was set, so the conditions are not set independent of outcome. -/
theorem conditions_not_set_on_failure :
    (Create exCreateEnvClusterFail []).1.isSome = true ∧
    (Create exCreateEnvClusterFail []).2.2 = false ∧
    (Delete exDeleteEnvGetFail).1.isSome = true ∧
    (Delete exDeleteEnvGetFail).2 = false :=
  ⟨rfl, rfl, rfl, rfl⟩

/-- C10 (amended): the Creating condition is set on a Create invocation, and
the Deleting condition on a Delete invocation, exactly when the operation
runs to completion with no error — the conditions are set at the end of the
operation, only on full success, not optimistically at invocation. -/
theorem conditions_set_iff_success (cenv : CreateEnv)
    (igs : List InstanceGroupSpec) (denv : DeleteEnv) :
    ((Create cenv igs).2.2 = true ↔ (Create cenv igs).1 = none) ∧
    ((Delete denv).2 = true ↔ (Delete denv).1 = none) := by
  constructor
  · unfold Create
    repeat' split
    all_goals simp
  · unfold Delete
    repeat' split
    all_goals simp

end ProviderKops
